import Mathlib

/-
Verification of the MCQ analysis backend: a shallow embedding of the crop
engine (services/image.py), the segmentation response mapping
(services/gemini.py), the page renderer (services/pdf.py) and the analysis
endpoints (routers/analyze.py), with theorems settling the spec claims.

Source floating point coordinates are embedded as rationals; base64 image
strings, the external model call and Python exceptions are embedded as
explicit data (Base64Image, ModelResponse, PyError).
-/

deriving instance DecidableEq for Except

/-- Truncation toward zero, the behaviour of the Python int conversion applied
to a numeric value in services/image.py. -/
def pyInt (q : ℚ) : ℤ := if 0 ≤ q then ⌊q⌋ else ⌈q⌉

/-- Normalized bounding box on the 0 to 1000 scale, from models/schemas.py. -/
structure BoundingBox where
  ymin : ℚ
  xmin : ℚ
  ymax : ℚ
  xmax : ℚ
deriving DecidableEq

/-- The cropped image artifact produced by ImageService: the white canvas of
the clamped crop rectangle, PNG encoded as a data URL string in the source.
Only its pixel dimensions are observable in the embedding. -/
structure CropArtifact where
  width : ℤ
  height : ℤ
deriving DecidableEq

/-- Model of a crop URL string value: none stands for the empty string used on
a per segment crop failure, some a for the data URL encoding artifact a. -/
abbrev CropUrl := Option CropArtifact

/-- Model of a base64 image string: valid w h is a string that decodes to a
w by h pixel image, invalid is a string whose decode raises. The data URL
prefix stripping of the source is absorbed into this abstraction. -/
inductive Base64Image where
  | valid (width height : ℕ)
  | invalid (tag : String)
deriving DecidableEq

/-- QuestionSegment from models/schemas.py. The cropUrl field distinguishes
the pydantic None default (outer none) from an assigned string. -/
structure QuestionSegment where
  id : String
  boundingBox : BoundingBox
  text : String
  cropUrl : Option CropUrl := none
  imageUrl : Option Base64Image := none
  sourceImageUrl : Option Base64Image := none
  subject : Option String := none
  chapter : Option String := none
  correctAnswer : Option String := none
deriving DecidableEq

/-- CroppedSegment from models/schemas.py: a segment with a mandatory cropUrl
string and without the imageUrl and sourceImageUrl fields. -/
structure CroppedSegment where
  id : String
  boundingBox : BoundingBox
  text : String
  cropUrl : CropUrl
  subject : Option String := none
  chapter : Option String := none
  correctAnswer : Option String := none
deriving DecidableEq

/-- AnalysisResult from models/schemas.py. -/
structure AnalysisResult where
  questions : List QuestionSegment
deriving DecidableEq

/-- Embedding of a raised Python exception, separating ValueError from every
other exception class because routers/analyze.py catches them differently. -/
inductive PyError where
  | valueError (msg : String)
  | otherError (msg : String)
deriving DecidableEq

/-- The message text carried by an exception. -/
def PyError.msg : PyError → String
  | PyError.valueError m => m
  | PyError.otherError m => m

/-- AnalyzeImageResponse from models/schemas.py. -/
structure AnalyzeImageResponse where
  success : Bool
  questions : List QuestionSegment
  error : Option String := none
  processingTimeMs : Option ℕ := none
deriving DecidableEq

/-- PDFAnalysisResponse from models/schemas.py. -/
structure PDFAnalysisResponse where
  success : Bool
  taskId : String
  pages : ℕ
  allQuestions : List QuestionSegment
  pageResults : List AnalysisResult
  error : Option String := none
  processingTimeMs : Option ℕ := none
deriving DecidableEq

/-- Outcome of an endpoint call: either a serialized response body, or a
raised HTTPException with a status code and detail text. -/
inductive EndpointResult (α : Type) where
  | response (body : α)
  | httpError (status : ℕ) (detail : String)
deriving DecidableEq

/-- The padding default of ImageService, used by the get_image_service
singleton. -/
def ImageService.default_padding : ℤ := 10

/-- Embedding of ImageService._crop_segment: scale the normalized coordinates
by width over 1000 and height over 1000 with int truncation, pad, clamp to
the image bounds, then crop and build the canvas. PIL crop raises ValueError
when the rectangle is inverted, which is the only failing step here; a non
inverted rectangle yields the artifact with the canvas dimensions. -/
def ImageService.crop_segment (padding : ℤ) (bbox : BoundingBox)
    (width height : ℕ) : Except PyError CropArtifact :=
  let x1 : ℤ := pyInt (bbox.xmin / 1000 * (width : ℚ))
  let y1 : ℤ := pyInt (bbox.ymin / 1000 * (height : ℚ))
  let x2 : ℤ := pyInt (bbox.xmax / 1000 * (width : ℚ))
  let y2 : ℤ := pyInt (bbox.ymax / 1000 * (height : ℚ))
  let x1p : ℤ := max 0 (x1 - padding)
  let y1p : ℤ := max 0 (y1 - padding)
  let x2p : ℤ := min (width : ℤ) (x2 + padding)
  let y2p : ℤ := min (height : ℤ) (y2 + padding)
  if x2p < x1p then
    Except.error (PyError.valueError "Coordinate right is less than left")
  else if y2p < y1p then
    Except.error (PyError.valueError "Coordinate lower is less than upper")
  else
    Except.ok { width := x2p - x1p, height := y2p - y1p }

/-- Embedding of ImageService._decode_image: strip the optional data URL
prefix, base64 decode and open with PIL; decoding an invalid image string
raises. -/
def ImageService.decode_image : Base64Image → Except PyError (ℕ × ℕ)
  | Base64Image.valid w h => Except.ok (w, h)
  | Base64Image.invalid t =>
      Except.error (PyError.otherError ("cannot identify image file " ++ t))

/-- One iteration of the extract_crops loop: crop the segment and build the
CroppedSegment, using the empty crop URL when cropping raised. -/
def ImageService.crop_one (padding : ℤ) (width height : ℕ)
    (s : QuestionSegment) : CroppedSegment :=
  match ImageService.crop_segment padding s.boundingBox width height with
  | Except.ok art =>
      { id := s.id, boundingBox := s.boundingBox, text := s.text,
        cropUrl := some art, subject := s.subject, chapter := s.chapter,
        correctAnswer := s.correctAnswer }
  | Except.error _ =>
      { id := s.id, boundingBox := s.boundingBox, text := s.text,
        cropUrl := none, subject := s.subject, chapter := s.chapter,
        correctAnswer := s.correctAnswer }

/-- Embedding of ImageService.extract_crops: decode the source image, then
crop every segment in order, catching per segment failures. A decode failure
propagates out of the whole batch. -/
def ImageService.extract_crops (padding : ℤ) (img : Base64Image)
    (segments : List QuestionSegment) : Except PyError (List CroppedSegment) := do
  let wh ← ImageService.decode_image img
  pure (segments.map (ImageService.crop_one padding wh.1 wh.2))

/-- The padded, clamped crop rectangle of a bounding box inverts: the right
edge falls left of the left edge, or the lower edge above the upper edge.
This is the condition under which PIL crop raises inside _crop_segment. -/
def invertsAfterPad (padding : ℤ) (b : BoundingBox) (W H : ℕ) : Prop :=
  min (W : ℤ) (pyInt (b.xmax / 1000 * (W : ℚ)) + padding)
      < max 0 (pyInt (b.xmin / 1000 * (W : ℚ)) - padding)
  ∨ min (H : ℤ) (pyInt (b.ymax / 1000 * (H : ℚ)) + padding)
      < max 0 (pyInt (b.ymin / 1000 * (H : ℚ)) - padding)

instance (padding : ℤ) (b : BoundingBox) (W H : ℕ) :
    Decidable (invertsAfterPad padding b W H) := by
  unfold invertsAfterPad
  infer_instance

/-- Raw bounding box object of the parsed model response in
services/gemini.py, each field possibly absent. -/
structure RawBBox where
  ymin : Option ℚ := none
  xmin : Option ℚ := none
  ymax : Option ℚ := none
  xmax : Option ℚ := none
deriving DecidableEq

/-- Raw question object of the parsed model response. -/
structure RawQuestion where
  id : Option String := none
  text : Option String := none
  subject : Option String := none
  correctAnswer : Option String := none
  boundingBox : Option RawBBox := none
deriving DecidableEq

/-- Top level parsed model response object; the questions key may be absent. -/
structure RawResult where
  questions : Option (List RawQuestion) := none
deriving DecidableEq

/-- Outcome of the external model call in GeminiService.analyze_image: an
empty body, a body that fails JSON parsing, an exception from the client
library, or a structurally parsed object. -/
inductive ModelResponse where
  | empty
  | malformed (err : String)
  | apiFailure (msg : String)
  | parsed (data : RawResult)
deriving DecidableEq

/-- The per question mapping loop of GeminiService.analyze_image: absent id
and text default to the empty string, absent subject and correctAnswer stay
absent, and absent bounding box fields default to ymin 0, xmin 0, ymax 1000
and xmax 1000. -/
def GeminiService.mapQuestion (q : RawQuestion) : QuestionSegment :=
  let bbox := q.boundingBox.getD {}
  { id := q.id.getD "",
    text := q.text.getD "",
    subject := q.subject,
    correctAnswer := q.correctAnswer,
    boundingBox :=
      { ymin := bbox.ymin.getD 0, xmin := bbox.xmin.getD 0,
        ymax := bbox.ymax.getD 1000, xmax := bbox.xmax.getD 1000 } }

/-- Embedding of GeminiService.analyze_image after the model call: an empty
response body raises ValueError, a JSON parse failure raises ValueError with
the parse detail, a client library exception is re raised unchanged, and a
parsed object is mapped to an AnalysisResult with a defaulted question list. -/
def GeminiService.analyze_image (resp : ModelResponse) :
    Except PyError AnalysisResult :=
  match resp with
  | ModelResponse.empty =>
      Except.error (PyError.valueError "Empty response from Gemini")
  | ModelResponse.malformed err =>
      Except.error (PyError.valueError ("Failed to parse Gemini response: " ++ err))
  | ModelResponse.apiFailure msg =>
      Except.error (PyError.otherError msg)
  | ModelResponse.parsed data =>
      Except.ok { questions := (data.questions.getD []).map GeminiService.mapQuestion }

/-- Embedding of the analyze endpoint of routers/analyze.py. The configured
flag models the presence of GEMINI_API_KEY: get_gemini_service raises
ValueError when it is absent. A ValueError from the service is converted to
an HTTPException with status 400; any other exception is converted to a
response with success false and an empty question list. -/
def analyze_image (configured : Bool) (resp : ModelResponse) (elapsed : ℕ) :
    EndpointResult AnalyzeImageResponse :=
  if configured = false then
    EndpointResult.httpError 400 "GEMINI_API_KEY environment variable is required"
  else
    match GeminiService.analyze_image resp with
    | Except.ok result =>
        EndpointResult.response
          { success := true, questions := result.questions,
            error := none, processingTimeMs := some elapsed }
    | Except.error (PyError.valueError m) => EndpointResult.httpError 400 m
    | Except.error (PyError.otherError m) =>
        EndpointResult.response
          { success := false, questions := [], error := some m,
            processingTimeMs := none }

/-- One page of a PDF document: the pixel dimensions of its rendering at the
configured DPI, together with the response the external model gives for the
rendered image. -/
structure Page where
  width : ℕ
  height : ℕ
  response : ModelResponse
deriving DecidableEq

/-- Model of an uploaded PDF byte payload: fitz.open either yields the page
list or raises. -/
inductive PdfFile where
  | valid (pages : List Page)
  | corrupt
deriving DecidableEq

/-- Embedding of fitz.open on a byte stream. -/
def fitz_open : PdfFile → Except PyError (List Page)
  | PdfFile.valid ps => Except.ok ps
  | PdfFile.corrupt => Except.error (PyError.otherError "cannot open broken document")

/-- Rendering one page in services/pdf.py: get_pixmap at the configured zoom,
PNG encode and wrap as a data URL; the result always decodes back to an image
with the page dimensions. -/
def PDFService.render (p : Page) : Base64Image := Base64Image.valid p.width p.height

/-- The page loop of PDFService.pdf_to_images, carrying the running page
index: it returns the rendered images in order together with the trace of
progress callback invocations, one after each page. -/
def PDFService.renderLoop (total : ℕ) : ℕ → List Page → List Base64Image × List (ℕ × ℕ)
  | _, [] => ([], [])
  | n, p :: ps =>
      let rest := PDFService.renderLoop total (n + 1) ps
      (PDFService.render p :: rest.1, (n + 1, total) :: rest.2)

/-- Embedding of PDFService.pdf_to_images: open the document and render every
page in order. The second component is the sequence of arguments passed to
the optional progress callback. -/
def PDFService.pdf_to_images (file : PdfFile) :
    Except PyError (List Base64Image × List (ℕ × ℕ)) := do
  let pages ← fitz_open file
  pure (PDFService.renderLoop pages.length 0 pages)

/-- Embedding of PDFService.pdf_to_single_image: open the document, raise
ValueError naming the index and the page count when the requested index is
beyond the document, otherwise render that page. -/
def PDFService.pdf_to_single_image (file : PdfFile) (page_num : ℕ) :
    Except PyError Base64Image := do
  let pages ← fitz_open file
  if h : page_num < pages.length then
    pure (PDFService.render (pages.get ⟨page_num, h⟩))
  else
    Except.error (PyError.valueError
      ("Page " ++ toString page_num ++ " does not exist (PDF has "
        ++ toString pages.length ++ " pages)"))

/-- The crop attachment loop of the analyze_pdf endpoint: for each question at
index j, when j is below the cropped list length, set cropUrl from the
cropped segment and set sourceImageUrl to the page image. -/
def attach_crops (img : Base64Image) (cropped : List CroppedSegment) :
    ℕ → List QuestionSegment → List QuestionSegment
  | _, [] => []
  | j, q :: qs =>
      (if h : j < cropped.length then
        { q with cropUrl := some ((cropped.get ⟨j, h⟩).cropUrl),
                 sourceImageUrl := some img }
      else q) :: attach_crops img cropped (j + 1) qs

/-- Processing of one page inside the analyze_pdf endpoint: segment the
rendered page image; when at least one question was found, crop all questions
of the page and attach crop URLs and the source page reference. -/
def process_page (p : Page) : Except PyError AnalysisResult := do
  let result ← GeminiService.analyze_image p.response
  if result.questions.isEmpty then
    pure result
  else do
    let cropped ← ImageService.extract_crops ImageService.default_padding
      (PDFService.render p) result.questions
    pure { questions := attach_crops (PDFService.render p) cropped 0 result.questions }

/-- The page loop of the analyze_pdf endpoint, accumulating the flattened all
questions list and the per page results in document order; a failure on any
page aborts the loop. -/
def pdf_loop : List Page → Except PyError (List QuestionSegment × List AnalysisResult)
  | [] => Except.ok ([], [])
  | p :: ps => do
      let r ← process_page p
      let rest ← pdf_loop ps
      pure (r.questions ++ rest.1, r :: rest.2)

/-- The body of the try block of the analyze_pdf endpoint: obtain the service
singletons (get_gemini_service raises ValueError when the API key is absent),
convert the PDF to page images, then analyze every page in order. -/
def analyze_pdf_core (configured : Bool) (file : PdfFile) :
    Except PyError (ℕ × List QuestionSegment × List AnalysisResult) :=
  if configured = false then
    Except.error (PyError.valueError "GEMINI_API_KEY environment variable is required")
  else do
    let pages ← fitz_open file
    let acc ← pdf_loop pages
    pure (pages.length, acc.1, acc.2)

/-- Embedding of the Python filename test for the analyze_pdf endpoint: lower
case the filename characters and test for the suffix pdf preceded by a dot. -/
def lowercase_is_pdf (filename : String) : Bool :=
  List.isSuffixOf ".pdf".data (filename.data.map Char.toLower)

/-- Embedding of the analyze_pdf endpoint: reject a filename without a pdf
suffix (lower cased) with HTTPException 400 before touching the file, then
run the pipeline; any pipeline failure becomes a structured failure response
with empty taskId and collections, while success carries a taskId derived
from the current time. -/
def analyze_pdf (filename : String) (configured : Bool) (file : PdfFile)
    (now elapsed : ℕ) : EndpointResult PDFAnalysisResponse :=
  if lowercase_is_pdf filename = false then
    EndpointResult.httpError 400 "File must be a PDF"
  else
    match analyze_pdf_core configured file with
    | Except.ok (n, allQ, pageRes) =>
        EndpointResult.response
          { success := true, taskId := "pdf_" ++ toString now, pages := n,
            allQuestions := allQ, pageResults := pageRes, error := none,
            processingTimeMs := some elapsed }
    | Except.error e =>
        EndpointResult.response
          { success := false, taskId := "", pages := 0, allQuestions := [],
            pageResults := [], error := some (PyError.msg e),
            processingTimeMs := none }

/-- Truncation toward zero agrees with the floor on non negative input. -/
theorem pyInt_of_nonneg (q : ℚ) (h : 0 ≤ q) : pyInt q = ⌊q⌋ := by
  simp [pyInt, h]

/-- Truncation of a non negative rational is non negative. -/
theorem pyInt_nonneg (q : ℚ) (h : 0 ≤ q) : 0 ≤ pyInt q := by
  rw [pyInt_of_nonneg q h]
  exact Int.floor_nonneg.mpr h

/-- Truncation is monotone on non negative inputs. -/
theorem pyInt_mono (a b : ℚ) (ha : 0 ≤ a) (hab : a ≤ b) : pyInt a ≤ pyInt b := by
  rw [pyInt_of_nonneg a ha, pyInt_of_nonneg b (le_trans ha hab)]
  exact Int.floor_le_floor hab

/-- Truncation of a non negative rational below a natural stays below it. -/
theorem pyInt_le_nat (q : ℚ) (n : ℕ) (h0 : 0 ≤ q) (h : q ≤ (n : ℚ)) :
    pyInt q ≤ (n : ℤ) := by
  rw [pyInt_of_nonneg q h0]
  calc ⌊q⌋ ≤ ⌊(n : ℚ)⌋ := Int.floor_le_floor h
    _ = (n : ℤ) := Int.floor_natCast n

/-- A non negative normalized coordinate scales to a non negative value. -/
theorem scale_nonneg (c : ℚ) (n : ℕ) (h : 0 ≤ c) : 0 ≤ c / 1000 * (n : ℚ) :=
  mul_nonneg (div_nonneg h (by norm_num)) (Nat.cast_nonneg n)

/-- A normalized coordinate at most 1000 scales to at most the pixel size. -/
theorem scale_le (c : ℚ) (n : ℕ) (h : c ≤ 1000) : c / 1000 * (n : ℚ) ≤ (n : ℚ) := by
  have h1 : c / 1000 ≤ 1 := by
    rw [div_le_one (by norm_num : (0:ℚ) < 1000)]
    exact h
  calc c / 1000 * (n : ℚ) ≤ 1 * (n : ℚ) :=
        mul_le_mul_of_nonneg_right h1 (Nat.cast_nonneg n)
    _ = (n : ℚ) := one_mul _

/-- C1: for a source image with positive pixel dimensions and a bounding box
with ordered coordinates on the 0 to 1000 scale, the crop engine scales each
coordinate by the pixel size over 1000 with int truncation, pads by 10,
clamps, and returns an artifact whose width is min W (x2 + 10) minus
max 0 (x1 - 10) clamped non negative, and whose height is the corresponding
expression in H. -/
theorem crop_segment_dims_in_range (bbox : BoundingBox) (W H : ℕ)
    (hW : 0 < W) (hH : 0 < H)
    (hx0 : 0 ≤ bbox.xmin) (hxle : bbox.xmin ≤ bbox.xmax) (hx1 : bbox.xmax ≤ 1000)
    (hy0 : 0 ≤ bbox.ymin) (hyle : bbox.ymin ≤ bbox.ymax) (hy1 : bbox.ymax ≤ 1000) :
    ImageService.crop_segment 10 bbox W H = Except.ok
      { width := max 0 (min (W : ℤ) (pyInt (bbox.xmax / 1000 * (W : ℚ)) + 10)
                  - max 0 (pyInt (bbox.xmin / 1000 * (W : ℚ)) - 10)),
        height := max 0 (min (H : ℤ) (pyInt (bbox.ymax / 1000 * (H : ℚ)) + 10)
                  - max 0 (pyInt (bbox.ymin / 1000 * (H : ℚ)) - 10)) } := by
  have hxa : 0 ≤ pyInt (bbox.xmin / 1000 * (W : ℚ)) :=
    pyInt_nonneg _ (scale_nonneg _ _ hx0)
  have hxb : pyInt (bbox.xmin / 1000 * (W : ℚ)) ≤ pyInt (bbox.xmax / 1000 * (W : ℚ)) :=
    pyInt_mono _ _ (scale_nonneg _ _ hx0)
      (mul_le_mul_of_nonneg_right
        ((div_le_div_iff_of_pos_right (by norm_num)).mpr hxle) (Nat.cast_nonneg W))
  have hxc : pyInt (bbox.xmax / 1000 * (W : ℚ)) ≤ (W : ℤ) :=
    pyInt_le_nat _ _ (scale_nonneg _ _ (le_trans hx0 hxle)) (scale_le _ _ hx1)
  have hya : 0 ≤ pyInt (bbox.ymin / 1000 * (H : ℚ)) :=
    pyInt_nonneg _ (scale_nonneg _ _ hy0)
  have hyb : pyInt (bbox.ymin / 1000 * (H : ℚ)) ≤ pyInt (bbox.ymax / 1000 * (H : ℚ)) :=
    pyInt_mono _ _ (scale_nonneg _ _ hy0)
      (mul_le_mul_of_nonneg_right
        ((div_le_div_iff_of_pos_right (by norm_num)).mpr hyle) (Nat.cast_nonneg H))
  have hyc : pyInt (bbox.ymax / 1000 * (H : ℚ)) ≤ (H : ℤ) :=
    pyInt_le_nat _ _ (scale_nonneg _ _ (le_trans hy0 hyle)) (scale_le _ _ hy1)
  simp only [ImageService.crop_segment]
  rw [if_neg (by omega), if_neg (by omega)]
  simp only [Except.ok.injEq, CropArtifact.mk.injEq]
  constructor <;> omega

/-- C1 witness, end to end scenario A: the full image box on a 100 by 100
image with padding 10 yields a 100 by 100 artifact. -/
theorem crop_segment_dims_in_range_witness :
    ImageService.crop_segment 10 { ymin := 0, xmin := 0, ymax := 1000, xmax := 1000 }
      100 100 = Except.ok { width := 100, height := 100 } := by
  have h := crop_segment_dims_in_range
    { ymin := 0, xmin := 0, ymax := 1000, xmax := 1000 } 100 100
    (by norm_num) (by norm_num) (by norm_num) (by norm_num) (by norm_num)
    (by norm_num) (by norm_num) (by norm_num)
  rw [h]
  norm_num [pyInt]

/-- A crop rectangle that inverts makes _crop_segment raise. -/
theorem crop_segment_error_of_inverts (padding : ℤ) (b : BoundingBox) (W H : ℕ)
    (h : invertsAfterPad padding b W H) :
    ∃ e, ImageService.crop_segment padding b W H = Except.error e := by
  unfold invertsAfterPad at h
  simp only [ImageService.crop_segment]
  split
  next => exact ⟨_, rfl⟩
  next hc1 =>
    split
    next => exact ⟨_, rfl⟩
    next hc2 =>
      rcases h with h | h
      · exact absurd h hc1
      · exact absurd h hc2

/-- The crop loop entry for a segment whose crop raised keeps all metadata and
carries the empty crop URL. -/
theorem crop_one_of_error (padding : ℤ) (W H : ℕ) (s : QuestionSegment) (e : PyError)
    (he : ImageService.crop_segment padding s.boundingBox W H = Except.error e) :
    ImageService.crop_one padding W H s =
      { id := s.id, boundingBox := s.boundingBox, text := s.text, cropUrl := none,
        subject := s.subject, chapter := s.chapter, correctAnswer := s.correctAnswer } := by
  unfold ImageService.crop_one
  rw [he]

/-- The crop loop entry for a segment whose crop succeeded keeps all metadata
and carries the artifact URL. -/
theorem crop_one_of_ok (padding : ℤ) (W H : ℕ) (s : QuestionSegment) (art : CropArtifact)
    (ha : ImageService.crop_segment padding s.boundingBox W H = Except.ok art) :
    ImageService.crop_one padding W H s =
      { id := s.id, boundingBox := s.boundingBox, text := s.text, cropUrl := some art,
        subject := s.subject, chapter := s.chapter, correctAnswer := s.correctAnswer } := by
  unfold ImageService.crop_one
  rw [ha]

/-- C3: on a decodable source image the batch crop returns exactly one output
segment per input segment, in order, as the map of the per segment crop; a
per segment crop failure yields the empty crop URL for that segment only,
while a source image decode failure fails the whole batch. -/
theorem extract_crops_batch_semantics (padding : ℤ) (W H : ℕ)
    (segs : List QuestionSegment) (tag : String) :
    ImageService.extract_crops padding (Base64Image.valid W H) segs
        = Except.ok (segs.map (ImageService.crop_one padding W H))
    ∧ (segs.map (ImageService.crop_one padding W H)).length = segs.length
    ∧ (∀ s e, s ∈ segs →
        ImageService.crop_segment padding s.boundingBox W H = Except.error e →
        (ImageService.crop_one padding W H s).cropUrl = none)
    ∧ ImageService.extract_crops padding (Base64Image.invalid tag) segs
        = Except.error (PyError.otherError ("cannot identify image file " ++ tag)) := by
  refine ⟨rfl, List.length_map _ _, ?_, rfl⟩
  intro s e _ he
  rw [crop_one_of_error padding W H s e he]

/-- C3 witness: a batch with one segment whose crop fails still succeeds with
one output carrying the empty crop URL, and the same batch on an image whose
decode fails propagates the decode error. -/
theorem extract_crops_batch_semantics_witness :
    ImageService.extract_crops 10 (Base64Image.valid 100 100)
      [{ id := "2", boundingBox := { ymin := 0, xmin := 2000, ymax := 0, xmax := 2000 },
         text := "q" }]
      = Except.ok
        [{ id := "2", boundingBox := { ymin := 0, xmin := 2000, ymax := 0, xmax := 2000 },
           text := "q", cropUrl := none }]
    ∧ ImageService.extract_crops 10 (Base64Image.invalid "x")
      [{ id := "2", boundingBox := { ymin := 0, xmin := 2000, ymax := 0, xmax := 2000 },
         text := "q" }]
      = Except.error (PyError.otherError "cannot identify image file x") := by
  have herr : ImageService.crop_segment 10
      { ymin := 0, xmin := 2000, ymax := 0, xmax := 2000 } 100 100
      = Except.error (PyError.valueError "Coordinate right is less than left") := by
    norm_num [ImageService.crop_segment, pyInt]
  have h := extract_crops_batch_semantics 10 100 100
    [{ id := "2", boundingBox := { ymin := 0, xmin := 2000, ymax := 0, xmax := 2000 },
       text := "q" }] "x"
  have hcu := h.2.2.1 _ _ (List.mem_singleton.mpr rfl) herr
  refine ⟨?_, h.2.2.2⟩
  rw [h.1]
  simp only [List.map_cons, List.map_nil]
  rw [crop_one_of_error 10 100 100
    { id := "2", boundingBox := { ymin := 0, xmin := 2000, ymax := 0, xmax := 2000 },
      text := "q" }
    (PyError.valueError "Coordinate right is less than left") herr]

/-- C4: for a segment whose box is degenerate or whose padded, clamped crop
rectangle inverts, the batch crop endpoint does not fail: the segment still
yields an output entry preserving its identity, and in the inverted case that
entry carries the empty crop URL artifact. -/
theorem extract_crops_tolerates_degenerate (padding : ℤ) (W H : ℕ)
    (s : QuestionSegment)
    (h : s.boundingBox.ymin = s.boundingBox.ymax
         ∨ s.boundingBox.xmin = s.boundingBox.xmax
         ∨ invertsAfterPad padding s.boundingBox W H) :
    ImageService.extract_crops padding (Base64Image.valid W H) [s]
        = Except.ok [ImageService.crop_one padding W H s]
    ∧ (ImageService.crop_one padding W H s).id = s.id
    ∧ (ImageService.crop_one padding W H s).boundingBox = s.boundingBox
    ∧ (invertsAfterPad padding s.boundingBox W H →
        (ImageService.crop_one padding W H s).cropUrl = none) := by
  refine ⟨rfl, ?_, ?_, ?_⟩
  · cases hc : ImageService.crop_segment padding s.boundingBox W H with
    | ok art => rw [crop_one_of_ok padding W H s art hc]
    | error e => rw [crop_one_of_error padding W H s e hc]
  · cases hc : ImageService.crop_segment padding s.boundingBox W H with
    | ok art => rw [crop_one_of_ok padding W H s art hc]
    | error e => rw [crop_one_of_error padding W H s e hc]
  · intro hinv
    obtain ⟨e, he⟩ := crop_segment_error_of_inverts padding s.boundingBox W H hinv
    rw [crop_one_of_error padding W H s e he]

/-- C4 witness: a degenerate box (ymin equal to ymax, xmin equal to xmax)
whose padded rectangle also inverts still produces a batch entry, with the
empty crop URL. -/
theorem extract_crops_tolerates_degenerate_witness :
    ImageService.extract_crops 10 (Base64Image.valid 100 100)
      [{ id := "3", boundingBox := { ymin := 0, xmin := 2000, ymax := 0, xmax := 2000 },
         text := "t" }]
      = Except.ok
        [ImageService.crop_one 10 100 100
          { id := "3", boundingBox := { ymin := 0, xmin := 2000, ymax := 0, xmax := 2000 },
            text := "t" }]
    ∧ (ImageService.crop_one 10 100 100
        { id := "3", boundingBox := { ymin := 0, xmin := 2000, ymax := 0, xmax := 2000 },
          text := "t" }).cropUrl = none := by
  have hinv : invertsAfterPad 10 { ymin := 0, xmin := 2000, ymax := 0, xmax := 2000 } 100 100 := by
    norm_num [invertsAfterPad, pyInt]
  have h := extract_crops_tolerates_degenerate 10 100 100
    { id := "3", boundingBox := { ymin := 0, xmin := 2000, ymax := 0, xmax := 2000 },
      text := "t" } (Or.inl rfl)
  exact ⟨h.1, h.2.2.2 hinv⟩

/-- C10: the batch crop maps each input segment, in order, to an output
segment preserving id, boundingBox, text, subject, chapter and correctAnswer
unchanged, populating only cropUrl; the cropUrl, imageUrl and sourceImageUrl
fields of the input segment do not influence the output and have no
counterpart in the output type. -/
theorem extract_crops_frame (padding : ℤ) (W H : ℕ) (segs : List QuestionSegment)
    (s : QuestionSegment) (u : Option CropUrl) (v w : Option Base64Image) :
    ImageService.extract_crops padding (Base64Image.valid W H) segs
        = Except.ok (segs.map (ImageService.crop_one padding W H))
    ∧ (ImageService.crop_one padding W H s).id = s.id
    ∧ (ImageService.crop_one padding W H s).boundingBox = s.boundingBox
    ∧ (ImageService.crop_one padding W H s).text = s.text
    ∧ (ImageService.crop_one padding W H s).subject = s.subject
    ∧ (ImageService.crop_one padding W H s).chapter = s.chapter
    ∧ (ImageService.crop_one padding W H s).correctAnswer = s.correctAnswer
    ∧ ImageService.crop_one padding W H
        { s with cropUrl := u, imageUrl := v, sourceImageUrl := w }
        = ImageService.crop_one padding W H s := by
  refine ⟨rfl, ?_⟩
  cases hc : ImageService.crop_segment padding s.boundingBox W H with
  | ok art =>
      have h1 := crop_one_of_ok padding W H s art hc
      have h2 := crop_one_of_ok padding W H
        { s with cropUrl := u, imageUrl := v, sourceImageUrl := w } art hc
      rw [h1, h2]
      simp
  | error e =>
      have h1 := crop_one_of_error padding W H s e hc
      have h2 := crop_one_of_error padding W H
        { s with cropUrl := u, imageUrl := v, sourceImageUrl := w } e hc
      rw [h1, h2]
      simp

/-- C7: the segmentation response mapping never fails on a question record
with absent optional fields: absent subject and correctAnswer stay absent,
an absent id or text becomes the empty string, and absent bounding box fields
default to ymin 0, xmin 0, ymax 1000 and xmax 1000, the whole image. -/
theorem mapQuestion_defaults (q : RawQuestion) :
    (GeminiService.mapQuestion q).subject = q.subject
    ∧ (GeminiService.mapQuestion q).correctAnswer = q.correctAnswer
    ∧ (GeminiService.mapQuestion q).id = q.id.getD ""
    ∧ (GeminiService.mapQuestion q).text = q.text.getD ""
    ∧ (GeminiService.mapQuestion q).cropUrl = none
    ∧ (q.boundingBox = none →
        (GeminiService.mapQuestion q).boundingBox
          = { ymin := 0, xmin := 0, ymax := 1000, xmax := 1000 })
    ∧ (∀ b, q.boundingBox = some b →
        (GeminiService.mapQuestion q).boundingBox
          = { ymin := b.ymin.getD 0, xmin := b.xmin.getD 0,
              ymax := b.ymax.getD 1000, xmax := b.xmax.getD 1000 })
    ∧ (∀ rest : List RawQuestion,
        GeminiService.analyze_image (ModelResponse.parsed { questions := some (q :: rest) })
          = Except.ok { questions := (q :: rest).map GeminiService.mapQuestion }) := by
  refine ⟨rfl, rfl, rfl, rfl, rfl, ?_, ?_, fun rest => rfl⟩
  · intro hb
    simp [GeminiService.mapQuestion, hb]
  · intro b hb
    simp [GeminiService.mapQuestion, hb]

/-- C7 witness: the empty raw question record decodes to the defaults. -/
theorem mapQuestion_defaults_witness :
    ({} : RawQuestion).boundingBox = none
    ∧ (GeminiService.mapQuestion {}).boundingBox
        = { ymin := 0, xmin := 0, ymax := 1000, xmax := 1000 }
    ∧ (GeminiService.mapQuestion {}).id = ""
    ∧ (GeminiService.mapQuestion {}).text = ""
    ∧ (GeminiService.mapQuestion {}).subject = none
    ∧ (GeminiService.mapQuestion {}).correctAnswer = none := by
  have h := mapQuestion_defaults {}
  exact ⟨rfl, h.2.2.2.2.2.1 rfl, h.2.2.1, h.2.2.2.1, h.1, h.2.1⟩

/-- C2 counterexample: when the external model returns an empty body, the
single image analysis endpoint raises HTTPException 400, a protocol level
error, and does not return the business level failure response claimed. -/
theorem analyze_image_empty_is_http400 :
    analyze_image true ModelResponse.empty 0
      = EndpointResult.httpError 400 "Empty response from Gemini"
    ∧ analyze_image true ModelResponse.empty 0
      ≠ EndpointResult.response
          { success := false, questions := [],
            error := some "Empty response from Gemini", processingTimeMs := none } := by
  refine ⟨rfl, ?_⟩
  intro hc
  exact EndpointResult.noConfusion hc

/-- C2 amended: when the external model response body is empty or fails JSON
parsing, the service raises ValueError and the single image analysis endpoint
converts it to a protocol level HTTPException with status 400 carrying the
error text; only a non ValueError failure is returned as a business level
failure with success false and an empty question list. -/
theorem analyze_image_parse_error_http400 (resp : ModelResponse) (elapsed : ℕ)
    (h : resp = ModelResponse.empty ∨ ∃ b, resp = ModelResponse.malformed b) :
    (∃ msg, analyze_image true resp elapsed = EndpointResult.httpError 400 msg)
    ∧ (∀ m, analyze_image true (ModelResponse.apiFailure m) elapsed
        = EndpointResult.response
            { success := false, questions := [],
              error := some m, processingTimeMs := none }) := by
  refine ⟨?_, fun m => rfl⟩
  rcases h with h | ⟨b, h⟩
  · exact ⟨"Empty response from Gemini", by rw [h]; rfl⟩
  · exact ⟨"Failed to parse Gemini response: " ++ b, by rw [h]; rfl⟩

/-- C2 amended witness: the empty model response yields the 400 error. -/
theorem analyze_image_parse_error_http400_witness :
    (ModelResponse.empty = ModelResponse.empty
      ∨ ∃ b, ModelResponse.empty = ModelResponse.malformed b)
    ∧ (∃ msg, analyze_image true ModelResponse.empty 7
        = EndpointResult.httpError 400 msg) := by
  have hh : ModelResponse.empty = ModelResponse.empty
      ∨ ∃ b, ModelResponse.empty = ModelResponse.malformed b := Or.inl rfl
  exact ⟨hh, (analyze_image_parse_error_http400 ModelResponse.empty 7 hh).1⟩

/-- C9: an upload whose filename does not end in pdf case insensitively is
rejected with HTTPException 400 citing that the file must be a PDF, and the
outcome does not depend on the uploaded file contents or any later pipeline
input, so nothing is read or rendered. -/
theorem analyze_pdf_filename_validation (filename : String)
    (configured configuredB : Bool) (file fileB : PdfFile)
    (now nowB elapsed elapsedB : ℕ)
    (h : lowercase_is_pdf filename = false) :
    analyze_pdf filename configured file now elapsed
      = EndpointResult.httpError 400 "File must be a PDF"
    ∧ analyze_pdf filename configured file now elapsed
      = analyze_pdf filename configuredB fileB nowB elapsedB := by
  refine ⟨?_, ?_⟩ <;> simp [analyze_pdf, h]

/-- C9 witness, end to end scenario C: a file named notes.txt is rejected
with the client error before any rendering. -/
theorem analyze_pdf_filename_validation_witness :
    lowercase_is_pdf "notes.txt" = false
    ∧ analyze_pdf "notes.txt" true (PdfFile.valid []) 0 0
      = EndpointResult.httpError 400 "File must be a PDF" := by
  have hf : lowercase_is_pdf "notes.txt" = false := by decide
  exact ⟨hf, (analyze_pdf_filename_validation "notes.txt" true true
    (PdfFile.valid []) (PdfFile.valid []) 0 0 0 0 hf).1⟩

/-- Closed form of the page render loop: the images are the rendered pages in
order and the progress trace counts up from the starting index, each entry
paired with the total. -/
theorem renderLoop_spec (total : ℕ) (ps : List Page) (n : ℕ) :
    PDFService.renderLoop total n ps
      = (ps.map PDFService.render,
         (List.range ps.length).map (fun i => (n + i + 1, total))) := by
  induction ps generalizing n with
  | nil => rfl
  | cons p ps ih =>
      have hfun : ((fun i => (n + i + 1, total)) ∘ Nat.succ)
          = (fun i => (n + 1 + i + 1, total)) := by
        funext i
        simp only [Function.comp_apply]
        congr 1
        omega
      simp only [PDFService.renderLoop, ih (n + 1), List.map_cons, List.length_cons,
        List.range_succ_eq_map, List.map_map, hfun]

/-- C8: rendering a document of N pages yields exactly N images, in page
order, with the progress callback invoked after each page with the completed
count and the total; requesting a single page render at an index at or beyond
the page count fails with a ValueError naming the index and the page count. -/
theorem pdf_renderer_spec (pages : List Page) (k : ℕ) (hk : pages.length ≤ k) :
    PDFService.pdf_to_images (PdfFile.valid pages)
      = Except.ok (pages.map PDFService.render,
          (List.range pages.length).map (fun i => (i + 1, pages.length)))
    ∧ (pages.map PDFService.render).length = pages.length
    ∧ PDFService.pdf_to_single_image (PdfFile.valid pages) k
      = Except.error (PyError.valueError
          ("Page " ++ toString k ++ " does not exist (PDF has "
            ++ toString pages.length ++ " pages)")) := by
  refine ⟨?_, List.length_map _ _, ?_⟩
  · show Except.ok (PDFService.renderLoop pages.length 0 pages) = _
    rw [renderLoop_spec]
    simp
  · show (if h : k < pages.length then
        Except.ok (PDFService.render (pages.get ⟨k, h⟩))
      else Except.error (PyError.valueError
        ("Page " ++ toString k ++ " does not exist (PDF has "
          ++ toString pages.length ++ " pages)"))) = _
    rw [dif_neg (by omega)]

/-- C8 witness: a two page document renders to two images in order with the
progress trace one of two then two of two, and requesting page index two
raises the validation error. -/
theorem pdf_renderer_spec_witness :
    ([{ width := 3, height := 4, response := ModelResponse.empty },
      { width := 5, height := 6, response := ModelResponse.empty }] : List Page).length ≤ 2
    ∧ PDFService.pdf_to_images (PdfFile.valid
        [{ width := 3, height := 4, response := ModelResponse.empty },
         { width := 5, height := 6, response := ModelResponse.empty }])
      = Except.ok ([Base64Image.valid 3 4, Base64Image.valid 5 6], [(1, 2), (2, 2)])
    ∧ PDFService.pdf_to_single_image (PdfFile.valid
        [{ width := 3, height := 4, response := ModelResponse.empty },
         { width := 5, height := 6, response := ModelResponse.empty }]) 2
      = Except.error (PyError.valueError "Page 2 does not exist (PDF has 2 pages)") := by
  have h := pdf_renderer_spec
    [{ width := 3, height := 4, response := ModelResponse.empty },
     { width := 5, height := 6, response := ModelResponse.empty }] 2 (by decide)
  refine ⟨by decide, ?_, ?_⟩
  · rw [h.1]
    decide
  · rw [h.2.2]
    decide

/-- Bind of a successful Except value reduces to the continuation. -/
theorem except_bind_ok {ε α β : Type} (a : α) (f : α → Except ε β) :
    (Except.ok a >>= f : Except ε β) = f a := rfl

/-- Bind of a failed Except value keeps the failure. -/
theorem except_bind_error {ε α β : Type} (e : ε) (f : α → Except ε β) :
    (Except.error e >>= f : Except ε β) = Except.error e := rfl

/-- Evaluation of the per page processing as a match on the model outcome: a
model failure propagates, an empty question list passes through unchanged,
and otherwise every question is cropped on the rendered page and the crop
attachment loop runs over the question list. -/
theorem process_page_eq (p : Page) :
    process_page p = match GeminiService.analyze_image p.response with
      | Except.error e => Except.error e
      | Except.ok res =>
          if res.questions.isEmpty then Except.ok res
          else Except.ok
            { questions :=
                attach_crops (PDFService.render p)
                  (res.questions.map (ImageService.crop_one
                    ImageService.default_padding p.width p.height)) 0 res.questions } := by
  unfold process_page
  cases hg : GeminiService.analyze_image p.response with
  | error e => rfl
  | ok res =>
      simp only [except_bind_ok]
      cases he : res.questions.isEmpty with
      | true =>
          simp [he]
          rfl
      | false =>
          have hex : ImageService.extract_crops ImageService.default_padding
              (PDFService.render p) res.questions
              = Except.ok (res.questions.map (ImageService.crop_one
                  ImageService.default_padding p.width p.height)) := rfl
          simp only [he, Bool.false_eq_true, if_false, hex, except_bind_ok]
          rfl

/-- Every question produced by the crop attachment loop carries an assigned
crop URL and the page reference, provided the cropped list covers the
remaining indices. -/
theorem attach_crops_mem (img : Base64Image) (cropped : List CroppedSegment)
    (j : ℕ) (qs : List QuestionSegment) (hlen : j + qs.length ≤ cropped.length) :
    ∀ q ∈ attach_crops img cropped j qs,
      q.cropUrl ≠ none ∧ q.sourceImageUrl = some img := by
  induction qs generalizing j with
  | nil =>
      intro q hq
      cases hq
  | cons a as ih =>
      intro q hq
      simp only [attach_crops] at hq
      rcases List.mem_cons.mp hq with h | h
      · subst h
        have hc : j < cropped.length := by
          simp only [List.length_cons] at hlen
          omega
        rw [dif_pos hc]
        exact ⟨by simp, rfl⟩
      · exact ih (j + 1) (by simp only [List.length_cons] at hlen; omega) q h

/-- A page processed successfully attaches, on a page with at least one
question, a crop URL and the rendered page reference to every question. -/
theorem process_page_ok (p : Page) (r : AnalysisResult)
    (h : process_page p = Except.ok r) :
    ∀ q ∈ r.questions,
      q.cropUrl ≠ none ∧ q.sourceImageUrl = some (PDFService.render p) := by
  rw [process_page_eq] at h
  split at h
  next => exact Except.noConfusion h
  next res heq =>
    split at h
    next he =>
      cases h
      intro q hq
      rw [List.isEmpty_iff.mp he] at hq
      cases hq
    next he =>
      cases h
      intro q hq
      refine attach_crops_mem (PDFService.render p) _ 0 res.questions ?_ q hq
      rw [List.length_map]
      omega

/-- Characterization of a fully successful page loop: one result per page in
document order, each the successful processing of its page, and the flattened
question list is the concatenation of the per page question lists. -/
theorem pdf_loop_ok (pages : List Page) (allQ : List QuestionSegment)
    (results : List AnalysisResult)
    (h : pdf_loop pages = Except.ok (allQ, results)) :
    results.length = pages.length
    ∧ (∀ i, (pages.get? i).map process_page = (results.get? i).map Except.ok)
    ∧ allQ = (results.map AnalysisResult.questions).flatten := by
  induction pages generalizing allQ results with
  | nil =>
      simp only [pdf_loop] at h
      cases h
      exact ⟨rfl, fun i => rfl, rfl⟩
  | cons p ps ih =>
      simp only [pdf_loop] at h
      cases hp : process_page p with
      | error e =>
          rw [hp, except_bind_error] at h
          exact Except.noConfusion h
      | ok r =>
          rw [hp, except_bind_ok] at h
          cases hrest : pdf_loop ps with
          | error e =>
              rw [hrest] at h
              exact Except.noConfusion h
          | ok acc =>
              obtain ⟨qs, rs⟩ := acc
              rw [hrest, except_bind_ok] at h
              cases h
              obtain ⟨ih1, ih2, ih3⟩ := ih qs rs hrest
              refine ⟨by simp [ih1], ?_, ?_⟩
              · intro i
                cases i with
                | zero => simp [hp]
                | succ i => simpa using ih2 i
              · simp [ih3]

/-- C5: a successful document analysis of an N page document reports pages
equal to N, exactly N page results in original page order (the result at
index i is the successful processing of the page at index i), allQuestions
equal to the concatenation of the per page question lists in page order, so
its length is the sum of the per page question counts; and on every page,
each returned question carries a crop artifact and a source page reference. -/
theorem analyze_pdf_success_shape (configured : Bool) (pages : List Page)
    (n : ℕ) (allQ : List QuestionSegment) (pageRes : List AnalysisResult)
    (h : analyze_pdf_core configured (PdfFile.valid pages)
          = Except.ok (n, allQ, pageRes)) :
    n = pages.length
    ∧ pageRes.length = pages.length
    ∧ (∀ i, (pages.get? i).map process_page = (pageRes.get? i).map Except.ok)
    ∧ allQ = (pageRes.map AnalysisResult.questions).flatten
    ∧ allQ.length = (pageRes.map (fun r => r.questions.length)).sum
    ∧ (∀ r ∈ pageRes, ∀ q ∈ r.questions,
        q.cropUrl ≠ none ∧ q.sourceImageUrl ≠ none) := by
  unfold analyze_pdf_core at h
  split at h
  next => exact Except.noConfusion h
  next =>
    rw [show fitz_open (PdfFile.valid pages) = Except.ok pages from rfl,
      except_bind_ok] at h
    cases hl : pdf_loop pages with
    | error e =>
        rw [hl, except_bind_error] at h
        exact Except.noConfusion h
    | ok acc =>
        obtain ⟨qs, rs⟩ := acc
        rw [hl, except_bind_ok] at h
        cases h
        obtain ⟨h1, h2, h3⟩ := pdf_loop_ok pages qs rs hl
        refine ⟨rfl, h1, h2, h3, ?_, ?_⟩
        · rw [h3, List.length_flatten, List.map_map]
          rfl
        · intro r hr q hq
          obtain ⟨i, hi⟩ := List.mem_iff_get?.mp hr
          have h2i := h2 i
          rw [hi] at h2i
          cases hp : pages.get? i with
          | none =>
              rw [hp] at h2i
              cases h2i
          | some p =>
              rw [hp] at h2i
              have hpp : process_page p = Except.ok r :=
                Option.some.inj h2i
              have hq2 := process_page_ok p r hpp q hq
              refine ⟨hq2.1, ?_⟩
              rw [hq2.2]
              exact Option.noConfusion

/-- C5 witness: a two page document whose pages each segment to zero
questions analyzes successfully with two page results and the counts line
up. -/
theorem analyze_pdf_success_shape_witness :
    analyze_pdf_core true (PdfFile.valid
        [{ width := 3, height := 4, response := ModelResponse.parsed { questions := some [] } },
         { width := 5, height := 6, response := ModelResponse.parsed { questions := none } }])
      = Except.ok (2, [], [{ questions := [] }, { questions := [] }])
    ∧ ([{ questions := ([] : List QuestionSegment) },
        { questions := [] }] : List AnalysisResult).length = 2 := by
  have hcore : analyze_pdf_core true (PdfFile.valid
        [{ width := 3, height := 4, response := ModelResponse.parsed { questions := some [] } },
         { width := 5, height := 6, response := ModelResponse.parsed { questions := none } }])
      = Except.ok (2, [], [{ questions := [] }, { questions := [] }]) := rfl
  have h := analyze_pdf_success_shape true _ 2 [] _ hcore
  exact ⟨hcore, by simpa using h.2.1⟩

/-- C6: after filename validation, any pipeline failure makes the document
endpoint return a structured failure response carrying success false, the
error text, zero pages, empty question and page collections and the empty
task id, never a protocol error; a successful pipeline yields a response
whose task id is the prefix pdf and underscore followed by the time. -/
theorem analyze_pdf_failure_isolation (filename : String) (configured : Bool)
    (file : PdfFile) (now elapsed : ℕ)
    (hpdf : lowercase_is_pdf filename = true) :
    (∀ e, analyze_pdf_core configured file = Except.error e →
      analyze_pdf filename configured file now elapsed
        = EndpointResult.response
            { success := false, taskId := "", pages := 0, allQuestions := [],
              pageResults := [], error := some (PyError.msg e),
              processingTimeMs := none })
    ∧ (∀ n allQ pageRes,
        analyze_pdf_core configured file = Except.ok (n, allQ, pageRes) →
        analyze_pdf filename configured file now elapsed
          = EndpointResult.response
              { success := true, taskId := "pdf_" ++ toString now, pages := n,
                allQuestions := allQ, pageResults := pageRes, error := none,
                processingTimeMs := some elapsed }) := by
  constructor
  · intro e he
    simp [analyze_pdf, hpdf, he]
  · intro n allQ pageRes hok
    simp [analyze_pdf, hpdf, hok]

/-- C6 witness: an unreadable PDF upload with a valid filename produces the
structured failure response with the empty task id and empty collections. -/
theorem analyze_pdf_failure_isolation_witness :
    lowercase_is_pdf "doc.pdf" = true
    ∧ analyze_pdf "doc.pdf" true PdfFile.corrupt 5 9
      = EndpointResult.response
          { success := false, taskId := "", pages := 0, allQuestions := [],
            pageResults := [], error := some "cannot open broken document",
            processingTimeMs := none } := by
  have hp : lowercase_is_pdf "doc.pdf" = true := by decide
  have hcore : analyze_pdf_core true PdfFile.corrupt
      = Except.error (PyError.otherError "cannot open broken document") := rfl
  exact ⟨hp, (analyze_pdf_failure_isolation "doc.pdf" true PdfFile.corrupt 5 9 hp).1
    (PyError.otherError "cannot open broken document") hcore⟩
